import Mathlib

/-!
Verification development for the PiPhi front-panel controller
(src/PiPhi.py): a shallow embedding of its pure computations —
station-list parsing, song-announcement parsing, the marquee scroller,
the volume subsystem, and the button-driven mode machine of the main
loop — together with theorems settling the specification claims.

Display writes and subprocess I/O are external collaborators; they are
modelled as emitted actions or omitted where no claim depends on them.
Python floats are modelled as exact rationals, Python ints as ℤ, and
Python strings as Lean strings (lists of characters).
-/

/-- Truncating conversion of a rational to an integer, as Python
int() applied to a float: rounds toward zero. -/
def pyInt (q : ℚ) : ℤ := Int.tdiv q.num (q.den : ℤ)

/-- Python truthiness of an integer: any nonzero value is true. -/
def pyTruthy (i : ℤ) : Bool := i != 0

/-- Splits a character list at the first occurrence of a pattern,
returning the part before the match and the part after it, or none
when the pattern does not occur.  This models both pexpect's expect
of a literal pattern (before / rest of stream) and str.find. -/
def splitFirst (pat : List Char) : List Char → Option (List Char × List Char)
  | [] => if pat.isPrefixOf ([] : List Char) then some ([], []) else none
  | c :: t =>
    if pat.isPrefixOf (c :: t) then some ([], (c :: t).drop pat.length)
    else (splitFirst pat t).map fun p => (c :: p.1, p.2)

/-- Python str.find: index of the first occurrence of pat in s, or -1
when pat does not occur. -/
def pyFind (s pat : String) : ℤ :=
  match splitFirst pat.data s.data with
  | none => -1
  | some p => (p.1.length : ℤ)

/-- Python list/str slice l[a:b] with step 1: negative indices count
from the end, out-of-range indices are clamped. -/
def pySliceList {α : Type} (l : List α) (a b : ℤ) : List α :=
  let n : ℤ := l.length
  let conv : ℤ → ℤ := fun i => if i < 0 then max (n + i) 0 else min i n
  (l.take (conv b).toNat).drop (conv a).toNat

/-- Python string slice s[a:b]. -/
def pySlice (s : String) (a b : ℤ) : String := String.mk (pySliceList s.data a b)

/-- Python string slice s[a:] (to the end of the string). -/
def pySliceFrom (s : String) (a : ℤ) : String :=
  String.mk (pySliceList s.data a s.data.length)

/-- Python str.strip(): remove leading and trailing whitespace. -/
def pyStrip (s : String) : String :=
  String.mk
    (((s.data.dropWhile Char.isWhitespace).reverse.dropWhile Char.isWhitespace).reverse)

/-- Python string repetition s * k. -/
def pyRepeat (s : String) (k : ℕ) : String :=
  String.mk (List.replicate k s.data).flatten

/-! ### Station-list parsing (get_stations, PiPhi.py lines 192-225)

The pexpect capture before the station-select prompt is split into
lines; the model takes that line list as input.  The LCD progress
message is display-only and omitted. -/

/-- Line filter of get_stations: transient noise lines containing
'playlist...' or 'Autostart' are skipped (line 209). -/
def skipLine (b : String) : Bool :=
  decide (0 ≤ pyFind b "playlist...") || decide (0 ≤ pyFind b "Autostart")

/-- The guard on line 215: if b.find('Radio') or b.find('QuickMix'),
with Python truthiness applied to the find results. -/
def stationGuard (b : String) : Bool :=
  pyTruthy (pyFind b "Radio") || pyTruthy (pyFind b "QuickMix")

/-- Fixed-column extraction of get_stations (lines 216-224): selector
id from characters 5-7, name from character 13 on, both stripped; a
name equal to 'QuickMix' is inserted at the head of both lists,
otherwise both are appended.  The accumulator is (names, ids). -/
def stationExtract (acc : List String × List String) (b : String) :
    List String × List String :=
  let sid := pyStrip (pySlice b 5 7)
  let name := pyStrip (pySliceFrom b 13)
  if name = "QuickMix" then (name :: acc.1, sid :: acc.2)
  else (acc.1 ++ [name], acc.2 ++ [sid])

/-- Processing of a single captured line by get_stations: skip noise
lines; otherwise apply the extraction when the line-215 guard holds. -/
def stationStep (acc : List String × List String) (b : String) :
    List String × List String :=
  if skipLine b then acc
  else if stationGuard b then stationExtract acc b
  else acc

/-- get_stations (lines 192-225): drop the final line (the station
select prompt) and fold the per-line processing over the rest,
returning (names, ids). -/
def get_stations (a : List String) : List String × List String :=
  a.dropLast.foldl stationStep ([], [])

/-! ### Song-announcement parsing (main loop, PiPhi.py lines 321-350)

After the 'SONG: ' marker matches, the code immediately clears the
now-playing record, then tries to match ' | ', ' | ' and a final line
break in sequence, filling fields as each pattern is found; a missing
pattern raises a timeout that is caught at the bottom of the polling
loop, abandoning the rest of the parse.  The model takes the stream
content following the marker as a string; print calls are I/O only. -/

/-- Now-playing record: the globals song_title, song_info and their
marquee offsets and wrap thresholds (PiPhi.py lines 48-55). -/
structure NowPlaying where
  song_title : String
  song_info : String
  x_title : ℤ
  x_info : ℤ
  x_title_wrap : ℤ
  x_info_wrap : ℤ
deriving DecidableEq

/-- The cleared record written at lines 325-330 when a song
announcement begins. -/
def clearedNP : NowPlaying :=
  { song_title := "", song_info := "", x_title := 16, x_info := 16,
    x_title_wrap := 0, x_info_wrap := 0 }

/-- Wrap threshold -n + 2 computed at lines 336 and 348. -/
def songWrap (n : ℕ) : ℤ := -(n : ℤ) + 2

/-- Effect of one song announcement on the now-playing record
(lines 324-350).  The prior record np is overwritten wholesale: every
tracked field is cleared before any pattern is tried, so the result
never depends on np.  Python's s * int(1 + 16 / n) is modelled with
natural division, exact here since 16 / n never rounds across an
integer for the lengths involved. -/
def processSong (_np : NowPlaying) (rest : String) : NowPlaying :=
  match splitFirst " | ".data rest.data with
  | none => clearedNP
  | some (title, r1) =>
    let s := String.mk title ++ "    "
    let n := s.length
    let np1 := { clearedNP with
                 x_title_wrap := songWrap n,
                 song_title := pyRepeat s (1 + 16 / n) ++ pySlice s 0 16 }
    match splitFirst " | ".data r1 with
    | none => np1
    | some (artist, r2) =>
      match splitFirst "\r\n".data r2 with
      | none => np1
      | some (album, _) =>
        let s2 := String.mk artist ++ " < " ++ String.mk album ++ " > "
        let n2 := s2.length
        { np1 with
          x_info_wrap := songWrap n2,
          song_info := pyRepeat s2 (2 + 16 / n2) ++ pySlice s2 0 16 }

/-- The three pipe-delimited fields (title, artist, album) of a song
announcement, or none when the pattern sequence of lines 331-345 does
not fully match. -/
def parseSong (rest : String) : Option (String × String × String) :=
  match splitFirst " | ".data rest.data with
  | none => none
  | some (title, r1) =>
    match splitFirst " | ".data r1 with
    | none => none
    | some (artist, r2) =>
      match splitFirst "\r\n".data r2 with
      | none => none
      | some (album, _) =>
        some (String.mk title, String.mk artist, String.mk album)

/-! ### Marquee scrolling (marquee, PiPhi.py lines 123-130) -/

/-- A run of k spaces, as in Python ' ' * x. -/
def spacesStr (k : ℕ) : String := String.mk (List.replicate k ' ')

/-- marquee (lines 123-130): returns the text written to the display
row and the new scroll offset.  For x > 0 the text scrolls in from the
right edge; afterwards a 16-character window slides left, and once the
offset passes the wrap threshold the offset resets to 0. -/
def marquee (s : String) (x : ℤ) (x_wrap : ℤ) : String × ℤ :=
  if 0 < x then (spacesStr x.toNat ++ pySlice s 0 (16 - x), x - 1)
  else
    let shown := pySlice s (-x) (16 - x)
    if x < x_wrap then (shown, 0) else (shown, x - 1)

/-! ### Volume subsystem (PiPhi.py lines 32-34, 259-266, 509-520) -/

/-- VOL_MIN (line 32). -/
def VOL_MIN : ℚ := -20

/-- VOL_MAX (line 33). -/
def VOL_MAX : ℚ := 15

/-- VOL_DEFAULT (line 34). -/
def VOL_DEFAULT : ℚ := 0

/-- Startup restore of the target volume (lines 259-266): vol_new is
the first pickled component when the file loads, with no clamping or
validation; on any failure vol_new keeps its initial value
VOL_DEFAULT. -/
def loadVolNew : Option ℚ → ℚ
  | some v => v
  | none => VOL_DEFAULT

/-- Per-tick volume transfer and command emission (lines 509-520):
both volumes are integerized via int((v - VOL_MIN) + 0.5), vol_cur
becomes vol_new, and when the integerized values differ a string of
one ')' or '(' per unit of difference is sent to the player process.
Returns the emitted command string, if any, and the new vol_cur. -/
def volumeTick (vol_cur vol_new : ℚ) : Option String × ℚ :=
  let vol_cur_i := pyInt ((vol_cur - VOL_MIN) + 1/2)
  let vol_new_i := pyInt ((vol_new - VOL_MIN) + 1/2)
  if vol_cur_i ≠ vol_new_i then
    let d := vol_new_i - vol_cur_i
    (some (if 0 < d then String.mk (List.replicate d.toNat ')')
           else String.mk (List.replicate (-d).toNat '(')), vol_new)
  else (none, vol_new)

/-- Net volume movement of an emitted command string: +1 per ')'
(volume up), -1 per '(' (volume down). -/
def cmdDelta : Option String → ℤ
  | none => 0
  | some s =>
    s.data.foldl (fun a c => if c = ')' then a + 1 else if c = '(' then a - 1 else a) 0

/-! ### Main-loop mode machine (PiPhi.py lines 308-545)

One tick of the main loop: the button dispatch (lines 374-501)
followed by the always-on volume transfer (lines 504-520).  Display
writes and player-process commands are emitted as actions.  Wall-clock
comparisons appear as boolean inputs: volTimedOut models
(time.time() - vol_time) >= 4 at line 499, and grace models
(time.time() - sta_btn_time) < 0.5 inside draw_stations (line 164).
A select press models a tap (released before HOLD_TIME); the hold
gesture shuts the process down and leaves the loop.  The pianobar
output parsing at the top of the loop only touches the now-playing
record, which is modelled separately above. -/

/-- Result of polling the five keypad buttons (lines 374-378). -/
structure Buttons where
  up : Bool
  down : Bool
  left : Bool
  right : Bool
  sel : Bool
deriving DecidableEq

/-- Environment of one tick: polled buttons plus the two wall-clock
tests the tick may consult. -/
structure Input where
  btns : Buttons
  volTimedOut : Bool
  grace : Bool
deriving DecidableEq

/-- Commands and display requests emitted during a tick. -/
inductive Act where
  | sendCancel
  | sendPause
  | sendNext
  | sendStationCmd
  | selectStation (i : ℤ)
  | drawStations (hl top : ℤ)
  | volCmd (s : String)
deriving DecidableEq

/-- The mutable globals of the main loop that the button logic reads
and writes (lines 38-59 and 425-427).  Python floats are rationals. -/
structure UI where
  vol_cur : ℚ
  vol_new : ℚ
  vol_speed : ℚ
  vol_set : Bool
  paused : Bool
  sta_sel : Bool
  station_num : ℤ
  station_new : ℤ
  list_top : ℤ
  cursorY : ℤ
  x_station : ℤ
deriving DecidableEq

/-- Return value of draw_stations (lines 153-189): 0 unless the
highlighted station is on a displayed row, its name is longer than 15
characters, the half-second grace period has elapsed, and the current
offset is above the wrap threshold -(len+2), in which case the offset
decremented by one is returned.  The message text goes to the LCD. -/
def draw_stations_ret (station_list : List String)
    (station_new list_top x_station : ℤ) (grace : Bool) : ℤ :=
  let rows := pySliceList station_list list_top (list_top + 2)
  (rows.foldl (fun (acc : ℤ × ℤ) (s : String) =>
    let r := if list_top + acc.1 = station_new ∧ 15 < s.length ∧ grace = false ∧
        -((s.length : ℤ) + 2) < x_station then x_station - 1 else acc.2
    (acc.1 + 1, r)) ((0 : ℤ), (0 : ℤ))).2

/-- Select-button tap (lines 382-400, ignoring the shutdown hold): in
the station menu it cancels the menu; otherwise it leaves
volume-setting mode and toggles pause. -/
def selBranch (st : UI) : UI × List Act :=
  if st.sta_sel then ({ st with sta_sel := false }, [Act.sendCancel])
  else ({ st with vol_set := false, paused := !st.paused }, [Act.sendPause])

/-- Right button (lines 404-412): next track from any mode, leaving
the station menu and volume-setting mode and un-pausing. -/
def rightBranch (st : UI) : UI × List Act :=
  ({ st with sta_sel := false, paused := false, vol_set := false },
   (if st.sta_sel then [Act.sendCancel] else []) ++ [Act.sendNext])

/-- Left button (lines 416-438): toggles the station menu.  Entry
resets the menu cursor variables to 0 and clears volume-setting mode;
the draw_stations call on line 432 discards its return value, so
x_station keeps the 0 set on line 428.  Exit commits the highlighted
station and un-pauses. -/
def leftBranch (st : UI) : UI × List Act :=
  if st.sta_sel then
    ({ st with sta_sel := false, station_num := st.station_new, paused := false },
     [Act.selectStation st.station_new])
  else
    ({ st with sta_sel := true, vol_set := false, cursorY := 0, station_new := 0,
               list_top := 0, x_station := 0 },
     [Act.sendStationCmd, Act.drawStations 0 0])

/-- Up/down in the station menu (lines 443-461): move the highlight
inside the list bounds, moving the cursor row or scrolling the window,
then redraw with the grace period freshly started. -/
def menuNav (stations : List String) (st : UI) (inp : Input) : UI × List Act :=
  let count : ℤ := stations.length
  let st1 :=
    if inp.btns.down then
      if st.station_new < count - 1 then
        { st with station_new := st.station_new + 1,
                  cursorY := if st.cursorY < 1 then st.cursorY + 1 else st.cursorY,
                  list_top := if st.cursorY < 1 then st.list_top else st.list_top + 1,
                  x_station := 0 }
      else st
    else
      if 0 < st.station_new then
        { st with station_new := st.station_new - 1,
                  cursorY := if 0 < st.cursorY then st.cursorY - 1 else st.cursorY,
                  list_top := if 0 < st.cursorY then st.list_top else st.list_top - 1,
                  x_station := 0 }
      else st
  ({ st1 with x_station :=
        draw_stations_ret stations st1.station_new st1.list_top 0 true },
   [Act.drawStations st1.station_new st1.list_top])

/-- Up/down outside the station menu (lines 463-486): enter
volume-setting mode if needed, clamp the new target volume at the
respective bound, and accelerate the speed by 1.15. -/
def volAdjust (st : UI) (inp : Input) : UI × List Act :=
  let st1 := if st.vol_set = false then { st with vol_set := true, vol_speed := 1 }
             else st
  let st2 :=
    if inp.btns.up then
      let v := st1.vol_cur + st1.vol_speed
      { st1 with vol_new := if VOL_MAX < v then VOL_MAX else v }
    else
      let v := st1.vol_cur - st1.vol_speed
      { st1 with vol_new := if v < VOL_MIN then VOL_MIN else v }
  ({ st2 with vol_speed := st2.vol_speed * (23/20 : ℚ) }, [])

/-- No buttons pressed (lines 489-501): keep scrolling a long
highlighted station name, or reset the volume speed and, when the
4-second timeout has elapsed, leave volume-setting mode. -/
def idleBranch (stations : List String) (st : UI) (inp : Input) : UI × List Act :=
  if st.sta_sel then
    if 15 < (stations.getD st.station_new.toNat "").length then
      ({ st with x_station := draw_stations_ret stations st.station_new st.list_top
                                st.x_station inp.grace },
       [Act.drawStations st.station_new st.list_top])
    else (st, [])
  else if st.vol_set then
    let st1 := { st with vol_speed := 1 }
    (if inp.volTimedOut then { st1 with vol_set := false } else st1, [])
  else (st, [])

/-- Button dispatch of one tick (lines 380-501). -/
def btnPhase (stations : List String) (st : UI) (inp : Input) : UI × List Act :=
  if inp.btns.sel then selBranch st
  else if inp.btns.right then rightBranch st
  else if inp.btns.left then leftBranch st
  else if inp.btns.up || inp.btns.down then
    if st.sta_sel then menuNav stations st inp else volAdjust st inp
  else idleBranch stations st inp

/-- Always-on end of tick (lines 504-520): outside the station menu,
vol_cur takes the value of vol_new and pending unit volume commands
are emitted.  The marquee LCD writes on lines 507 and 538 are display
output over the separately modelled now-playing record. -/
def tickPhase (st : UI) : UI × List Act :=
  if st.sta_sel then (st, [])
  else
    let r := volumeTick st.vol_cur st.vol_new
    ({ st with vol_cur := r.2 },
     match r.1 with
     | some s => [Act.volCmd s]
     | none => [])

/-- One full tick of the main loop. -/
def step (stations : List String) (st : UI) (inp : Input) : UI × List Act :=
  let b := btnPhase stations st inp
  let t := tickPhase b.1
  (t.1, b.2 ++ t.2)

/-- State at entry to the main loop (globals of lines 38-59, with
vol_new possibly replaced by the pickled volume, lines 259-266).
station_num is the startup default of 0; restoring a remembered
station only changes this in-range index. -/
def initUI (v0 : ℚ) : UI :=
  { vol_cur := VOL_MIN, vol_new := v0, vol_speed := 1, vol_set := false,
    paused := false, sta_sel := false, station_num := 0, station_new := 0,
    list_top := 0, cursorY := 0, x_station := 0 }

/-- Iterated main loop: the state after processing a list of tick
inputs. -/
def run (stations : List String) (st : UI) (inps : List Input) : UI :=
  inps.foldl (fun s i => (step stations s i).1) st

/-! ### Invariants and concrete tick inputs -/

/-- Mutual exclusion of the interaction-mode flags: VolumeAdjust
(vol_set) and StationMenu (sta_sel) are never both active, so exactly
one of Normal, VolumeAdjust, StationMenu holds at a sampled instant. -/
def FlagsOK (s : UI) : Prop := s.vol_set = false ∨ s.sta_sel = false

/-- Station-menu bookkeeping: while the menu is open, the highlight
index lies in [0, count-1], sits cursorY rows below the window top,
and the cursor row is one of the two visible rows. -/
def MenuOK (count : ℤ) (s : UI) : Prop :=
  s.sta_sel = true →
    0 ≤ s.station_new ∧ s.station_new ≤ count - 1 ∧
    s.station_new = s.list_top + s.cursorY ∧ 0 ≤ s.cursorY ∧ s.cursorY ≤ 1

/-- Volume bookkeeping: both the applied and the target volume lie in
[VOL_MIN, VOL_MAX] and the speed is positive. -/
def VolOK (s : UI) : Prop :=
  VOL_MIN ≤ s.vol_cur ∧ s.vol_cur ≤ VOL_MAX ∧ VOL_MIN ≤ s.vol_new ∧
  s.vol_new ≤ VOL_MAX ∧ 0 < s.vol_speed

/-- A tick with no buttons pressed and no timers elapsed. -/
def inIdle : Input :=
  { btns := { up := false, down := false, left := false, right := false, sel := false },
    volTimedOut := false, grace := true }

/-- A tick with only the left button pressed. -/
def inLeft : Input := { inIdle with btns := { inIdle.btns with left := true } }

/-- A tick with only the up button pressed. -/
def inUp : Input := { inIdle with btns := { inIdle.btns with up := true } }

/-- A tick with only the down button pressed. -/
def inDown : Input := { inIdle with btns := { inIdle.btns with down := true } }

/-! ### Helper lemmas -/

/-- A split whose before-part is empty means the pattern sits at the
head of the list. -/
theorem splitFirst_nil_isPrefixOf {pat l post : List Char}
    (h : splitFirst pat l = some ([], post)) : pat.isPrefixOf l = true := by
  cases l with
  | nil =>
    unfold splitFirst at h
    split at h
    · assumption
    · exact absurd h (by simp)
  | cons c t =>
    unfold splitFirst at h
    split at h
    · assumption
    · rcases hm : splitFirst pat t with _ | p <;> rw [hm] at h <;> simp at h

/-- str.find returning 0 means the pattern is a prefix of the
string. -/
theorem pyFind_eq_zero_isPrefixOf {s pat : String} (h : pyFind s pat = 0) :
    pat.data.isPrefixOf s.data = true := by
  unfold pyFind at h
  rcases hm : splitFirst pat.data s.data with _ | ⟨p1, p2⟩
  · rw [hm] at h
    exact absurd h (by decide)
  · rw [hm] at h
    have hp : p1 = [] := by
      have hl : (p1.length : ℤ) = 0 := h
      simpa using hl
    subst hp
    exact splitFirst_nil_isPrefixOf hm

/-- Two lists with distinct heads cannot both be prefixes of the same
list. -/
theorem isPrefixOf_cons_head {a b : Char} {as bs : List Char}
    (h : List.isPrefixOf (a :: as) (b :: bs) = true) : a = b := by
  simp [List.isPrefixOf] at h
  exact h.1

/-- The line-215 guard is a tautology: str.find returns -1 (truthy)
when the substring is absent, and the two finds can only both return
the falsy 0 if the line starts with both 'Radio' and 'QuickMix',
which is impossible. -/
theorem stationGuard_eq_true (b : String) : stationGuard b = true := by
  by_contra h
  rw [Bool.not_eq_true] at h
  unfold stationGuard at h
  rw [Bool.or_eq_false_iff] at h
  obtain ⟨h1, h2⟩ := h
  unfold pyTruthy at h1 h2
  rw [bne_eq_false_iff_eq] at h1 h2
  have p1 := pyFind_eq_zero_isPrefixOf h1
  have p2 := pyFind_eq_zero_isPrefixOf h2
  rcases hb : b.data with _ | ⟨c, t⟩
  · rw [hb] at p1
    exact absurd p1 (by decide)
  · rw [hb] at p1 p2
    have r1 : "Radio".data = 'R' :: "adio".data := rfl
    have r2 : "QuickMix".data = 'Q' :: "uickMix".data := rfl
    rw [r1] at p1
    rw [r2] at p2
    have e1 := isPrefixOf_cons_head p1
    have e2 := isPrefixOf_cons_head p2
    rw [← e1] at e2
    exact absurd e2 (by decide)

/-! ### Claim C5: station-list parsing example -/

/-- C5 counterexample: on the input lines of the claim, get_stations
does not return names ["QuickMix", "80s Rock"] with ids ["01", "02"];
the claimed columns do not line up with the extraction at characters
5-7 and 13 onward, so the code extracts ids ["", ""] and names
["Mix", "ck"] instead. -/
theorem C5_counterexample :
    get_stations ["01)    Quick Mix", "02)    80s Rock", "Select station: "] ≠
      (["QuickMix", "80s Rock"], ["01", "02"]) := by decide

/-- C5 (corrected): on the claim's input lines the fixed-column
extraction yields names ["Mix", "ck"] and ids ["", ""], with no
QuickMix pinning, because the example's columns do not match the
id-at-5-7 / name-at-13 layout; on lines that do follow that layout the
parse yields ["QuickMix", "80s Rock"] with QuickMix moved to the head
regardless of original order, and matching ids ["02", "01"]. -/
theorem C5_station_parsing :
    get_stations ["01)    Quick Mix", "02)    80s Rock", "Select station: "] =
      (["Mix", "ck"], ["", ""]) ∧
    get_stations ["xxxxx01xxxxxx80s Rock", "xxxxx02xxxxxxQuickMix", "Select station: "] =
      (["QuickMix", "80s Rock"], ["02", "01"]) := by decide

/-! ### Claim C10: the find-based guard is a tautology -/

/-- C10: the guard if b.find('Radio') or b.find('QuickMix') evaluates
true for every line b (str.find yields the truthy -1 when the
substring is absent), so every line that is not skipped as noise has
the fixed-column extraction applied, whether or not it mentions
'Radio' or 'QuickMix'. -/
theorem C10_guard_tautology :
    (∀ b : String, stationGuard b = true) ∧
    (∀ (b : String) (acc : List String × List String), skipLine b = false →
      stationStep acc b = stationExtract acc b) := by
  refine ⟨stationGuard_eq_true, fun b acc hskip => ?_⟩
  unfold stationStep
  rw [hskip, stationGuard_eq_true]
  simp

/-- Concrete instance of C10: a line mentioning neither 'Radio' nor
'QuickMix' still gets the extraction applied. -/
theorem C10_witness :
    skipLine "02)    80s Pop" = false ∧
    stationStep ([], []) "02)    80s Pop" = stationExtract ([], []) "02)    80s Pop" :=
  ⟨by decide, C10_guard_tautology.2 "02)    80s Pop" ([], []) (by decide)⟩

/-! ### Claim C6: song-announcement example -/

/-- C6 counterexample: on the claim's announcement, which has no
spaces around the pipes, the parser's ' | ' patterns never match, the
parse is abandoned, and both marquee strings are left empty rather
than populated. -/
theorem C6_counterexample :
    parseSong "Life|Artist X|Album Y\r\n" = none ∧
    (processSong clearedNP "Life|Artist X|Album Y\r\n").song_title = "" ∧
    (processSong clearedNP "Life|Artist X|Album Y\r\n").song_info = "" := by decide

/-- C6 (corrected): the parser's delimiters are ' | ' with surrounding
spaces, so for the announcement "Life | Artist X | Album Y\r\n" it
populates title "Life", artist "Artist X", album "Album Y", and the
derived marquee strings for both display lines are non-empty,
whatever record was in place before. -/
theorem C6_song_announcement (np : NowPlaying) :
    parseSong "Life | Artist X | Album Y\r\n" =
      some ("Life", "Artist X", "Album Y") ∧
    (processSong np "Life | Artist X | Album Y\r\n").song_title ≠ "" ∧
    (processSong np "Life | Artist X | Album Y\r\n").song_info ≠ "" := by
  have hnp : processSong np "Life | Artist X | Album Y\r\n" =
      processSong clearedNP "Life | Artist X | Album Y\r\n" := rfl
  rw [hnp]
  decide

/-! ### Claim C3: partial song announcement -/

/-- C3 counterexample: a song announcement whose fields never match
does not leave the now-playing record unchanged; the record is
cleared at the start of the announcement, so the previous titles are
lost. -/
theorem C3_counterexample :
    parseSong "TIME: -02:33/04:10\r" = none ∧
    processSong
      { song_title := "OldTitleOldTitle", song_info := "OldInfoOldInfo",
        x_title := -3, x_info := -5, x_title_wrap := -14, x_info_wrap := -12 }
      "TIME: -02:33/04:10\r" ≠
      { song_title := "OldTitleOldTitle", song_info := "OldInfoOldInfo",
        x_title := -3, x_info := -5, x_title_wrap := -14, x_info_wrap := -12 } := by
  decide

/-- C3 (corrected): when the three pipe-delimited fields are not all
matched, the parse of the announcement is abandoned, but the
now-playing record is not preserved: it was cleared when the marker
matched, so the artist/album line and its offsets hold the cleared
values, and if even the first delimiter is missing the whole record
equals the cleared record, whatever it held before the
announcement. -/
theorem C3_partial_parse_clears (np : NowPlaying) (rest : String)
    (h : parseSong rest = none) :
    (processSong np rest).song_info = "" ∧
    (processSong np rest).x_info = 16 ∧
    (processSong np rest).x_info_wrap = 0 ∧
    (splitFirst " | ".data rest.data = none → processSong np rest = clearedNP) := by
  unfold processSong
  rcases h1 : splitFirst " | ".data rest.data with _ | ⟨title, r1⟩
  · exact ⟨rfl, rfl, rfl, fun _ => rfl⟩
  · dsimp only
    rcases h2 : splitFirst " | ".data r1 with _ | ⟨artist, r2⟩
    · exact ⟨rfl, rfl, rfl, fun hc => nomatch hc⟩
    · dsimp only
      rcases h3 : splitFirst "\r\n".data r2 with _ | ⟨album, r3⟩
      · exact ⟨rfl, rfl, rfl, fun hc => nomatch hc⟩
      · have hps : parseSong rest =
            some (String.mk title, String.mk artist, String.mk album) := by
          unfold parseSong
          rw [h1]
          dsimp only
          rw [h2]
          dsimp only
          rw [h3]
        rw [hps] at h
        exact nomatch h

/-- Concrete instance of C3 as corrected: an announcement with a title
but no second delimiter abandons the parse with the artist/album line
cleared. -/
theorem C3_witness :
    parseSong "Life | trailing garbage" = none ∧
    (processSong clearedNP "Life | trailing garbage").song_info = "" ∧
    (processSong clearedNP "Life | trailing garbage").x_info = 16 ∧
    (processSong clearedNP "Life | trailing garbage").x_info_wrap = 0 ∧
    (splitFirst " | ".data "Life | trailing garbage".data = none →
      processSong clearedNP "Life | trailing garbage" = clearedNP) :=
  ⟨by decide, C3_partial_parse_clears clearedNP "Life | trailing garbage" (by decide)⟩

/-! ### Claim C7: marquee offset periodicity -/

/-- The new offset returned by marquee, isolated from the display
text. -/
theorem marquee_snd (s : String) (x w : ℤ) :
    (marquee s x w).2 = if 0 < x then x - 1 else if x < w then 0 else x - 1 := by
  unfold marquee
  split_ifs <;> rfl

/-- C7: for every displayed string s and padded length n of at least
3, iterating the marquee step with wrap threshold -n + 2 strictly
decreases the offset by one while it has not passed the threshold;
one step past the threshold it resets to 0, the start offset of the
cycle; and from 0 the offsets repeat with period n, giving an
infinite cyclic sequence. -/
theorem C7_marquee_periodic (s : String) (n : ℕ) (hn : 3 ≤ n) :
    (∀ x : ℤ, songWrap n ≤ x → (marquee s x (songWrap n)).2 = x - 1) ∧
    (marquee s (songWrap n - 1) (songWrap n)).2 = 0 ∧
    (∀ k : ℕ, (k : ℤ) ≤ (n : ℤ) - 2 →
      (fun x => (marquee s x (songWrap n)).2)^[k] 0 = -(k : ℤ)) ∧
    (fun x => (marquee s x (songWrap n)).2)^[n] 0 = 0 ∧
    (∀ m k : ℕ, (fun x => (marquee s x (songWrap n)).2)^[m * n + k] 0 =
      (fun x => (marquee s x (songWrap n)).2)^[k] 0) := by
  have hn' : (3 : ℤ) ≤ (n : ℤ) := by exact_mod_cast hn
  have hw : songWrap n ≤ -1 := by unfold songWrap; omega
  have step1 : ∀ x : ℤ, songWrap n ≤ x → (marquee s x (songWrap n)).2 = x - 1 := by
    intro x hx
    rw [marquee_snd]
    by_cases h0 : 0 < x
    · simp [h0]
    · have hnlt : ¬ x < songWrap n := by omega
      simp [h0, hnlt]
  have step2 : (marquee s (songWrap n - 1) (songWrap n)).2 = 0 := by
    rw [marquee_snd]
    have h0 : ¬ 0 < songWrap n - 1 := by omega
    have h1 : songWrap n - 1 < songWrap n := by omega
    simp [h0, h1]
  have iter1 : ∀ k : ℕ, (k : ℤ) ≤ (n : ℤ) - 2 →
      (fun x => (marquee s x (songWrap n)).2)^[k] 0 = -(k : ℤ) := by
    intro k
    induction k with
    | zero => intro _; simp
    | succ k ih =>
      intro hk
      have hk' : (k : ℤ) ≤ (n : ℤ) - 2 := by push_cast at hk; omega
      rw [Function.iterate_succ_apply', ih hk']
      have hge : songWrap n ≤ -(k : ℤ) := by
        unfold songWrap
        push_cast at hk
        omega
      show (marquee s (-(k : ℤ)) (songWrap n)).2 = -((k : ℕ).succ : ℤ)
      rw [step1 _ hge]
      push_cast
      ring
  have iterN : (fun x => (marquee s x (songWrap n)).2)^[n] 0 = 0 := by
    have hsplit : (fun x => (marquee s x (songWrap n)).2)^[n] 0 =
        (fun x => (marquee s x (songWrap n)).2)^[2]
          ((fun x => (marquee s x (songWrap n)).2)^[n - 2] 0) := by
      rw [← Function.iterate_add_apply]
      have he : n = 2 + (n - 2) := by omega
      rw [← he]
    have hk2 : ((n - 2 : ℕ) : ℤ) ≤ (n : ℤ) - 2 := by
      push_cast [Nat.cast_sub (by omega : 2 ≤ n)]
      omega
    have hcast : -((n - 2 : ℕ) : ℤ) = songWrap n := by
      unfold songWrap
      push_cast [Nat.cast_sub (by omega : 2 ≤ n)]
      omega
    rw [hsplit, iter1 (n - 2) hk2, hcast]
    rw [show (fun x => (marquee s x (songWrap n)).2)^[2] (songWrap n) =
        (fun x => (marquee s x (songWrap n)).2)
          ((marquee s (songWrap n) (songWrap n)).2) from rfl]
    rw [step1 _ le_rfl]
    show (marquee s (songWrap n - 1) (songWrap n)).2 = 0
    exact step2
  refine ⟨step1, step2, iter1, iterN, ?_⟩
  intro m
  induction m with
  | zero => intro k; simp
  | succ m ih =>
    intro k
    have hrw : (m + 1) * n + k = (m * n + k) + n := by ring
    rw [hrw, Function.iterate_add_apply, iterN, ih k]

/-- Concrete instance of C7: with padded length 6 the offsets starting
at 0 repeat after exactly 6 ticks. -/
theorem C7_witness :
    3 ≤ 6 ∧ (fun x => (marquee "ab    " x (songWrap 6)).2)^[6] 0 = 0 :=
  ⟨by decide, (C7_marquee_periodic "ab    " 6 (by decide)).2.2.2.1⟩

/-! ### Claim C9: pickled volume restored without clamping -/

/-- The per-tick volume transfer always makes vol_cur equal to
vol_new. -/
theorem volumeTick_snd (c v : ℚ) : (volumeTick c v).2 = v := by
  unfold volumeTick
  dsimp only
  split <;> rfl

/-- Folding the command counter over a run of ')' characters adds the
run length. -/
theorem foldl_delta_close (k : ℕ) (z : ℤ) :
    List.foldl (fun a c => if c = ')' then a + 1 else if c = '(' then a - 1 else a) z
      (List.replicate k ')') = z + k := by
  induction k generalizing z with
  | zero => simp
  | succ k ih =>
    rw [List.replicate_succ, List.foldl_cons, ih, if_pos rfl]
    push_cast
    ring

/-- Folding the command counter over a run of '(' characters subtracts
the run length. -/
theorem foldl_delta_open (k : ℕ) (z : ℤ) :
    List.foldl (fun a c => if c = ')' then a + 1 else if c = '(' then a - 1 else a) z
      (List.replicate k '(') = z - k := by
  induction k generalizing z with
  | zero => simp
  | succ k ih =>
    rw [List.replicate_succ, List.foldl_cons, ih, if_neg (by decide), if_pos rfl]
    push_cast
    ring

/-- The command string for a positive difference moves the volume up
by exactly that difference. -/
theorem cmdDelta_close (k : ℕ) :
    cmdDelta (some (String.mk (List.replicate k ')'))) = (k : ℤ) := by
  unfold cmdDelta
  dsimp only
  rw [foldl_delta_close]
  ring

/-- The command string for a negative difference moves the volume down
by exactly that difference. -/
theorem cmdDelta_open (k : ℕ) :
    cmdDelta (some (String.mk (List.replicate k '('))) = -(k : ℤ) := by
  unfold cmdDelta
  dsimp only
  rw [foldl_delta_open]
  ring

/-- The emitted command string always moves the player volume by
exactly the integerized difference, with no clamping anywhere. -/
theorem volumeTick_delta (c v : ℚ) :
    cmdDelta (volumeTick c v).1 =
      pyInt ((v - VOL_MIN) + 1/2) - pyInt ((c - VOL_MIN) + 1/2) := by
  unfold volumeTick
  dsimp only
  by_cases hab : pyInt ((c - VOL_MIN) + 1/2) ≠ pyInt ((v - VOL_MIN) + 1/2)
  · rw [if_pos hab]
    by_cases hpos : 0 < pyInt ((v - VOL_MIN) + 1/2) - pyInt ((c - VOL_MIN) + 1/2)
    · rw [if_pos hpos]
      show cmdDelta (some (String.mk (List.replicate
        (pyInt ((v - VOL_MIN) + 1/2) - pyInt ((c - VOL_MIN) + 1/2)).toNat ')'))) = _
      rw [cmdDelta_close]
      omega
    · rw [if_neg hpos]
      show cmdDelta (some (String.mk (List.replicate
        (-(pyInt ((v - VOL_MIN) + 1/2) - pyInt ((c - VOL_MIN) + 1/2))).toNat '('))) = _
      rw [cmdDelta_open]
      omega
  · rw [if_neg hab]
    rw [not_ne_iff] at hab
    show cmdDelta none = _
    rw [show cmdDelta none = 0 from rfl]
    omega

/-- C9: the volume restored from the persistence file is applied
without clamping.  For every stored value v — in range or not — the
session's target volume vol_new is exactly v (lines 259-266 assign
the pickled value with no bounds check), the first tick makes vol_cur
equal to v, and the unit volume commands emitted on that first tick
(from the initial vol_cur of VOL_MIN, line 39) cover the full
integerized difference with no clamping. -/
theorem C9_pickled_volume_unclamped (v : ℚ) :
    loadVolNew (some v) = v ∧
    (volumeTick VOL_MIN (loadVolNew (some v))).2 = v ∧
    cmdDelta (volumeTick VOL_MIN (loadVolNew (some v))).1 =
      pyInt ((v - VOL_MIN) + 1/2) - pyInt ((VOL_MIN - VOL_MIN) + 1/2) :=
  ⟨rfl, volumeTick_snd _ _, volumeTick_delta _ _⟩

/-! ### Main-loop invariants (claims C1, C2, C4, C8) -/

/-- Unfolding one tick of the iterated main loop. -/
theorem run_cons (stations : List String) (st : UI) (i : Input) (is : List Input) :
    run stations st (i :: is) = run stations (step stations st i).1 is := rfl

/-- The end-of-tick volume transfer leaves every field except vol_cur
unchanged. -/
theorem tickPhase_preserves (st : UI) :
    (tickPhase st).1.vol_set = st.vol_set ∧ (tickPhase st).1.sta_sel = st.sta_sel ∧
    (tickPhase st).1.vol_new = st.vol_new ∧ (tickPhase st).1.vol_speed = st.vol_speed ∧
    (tickPhase st).1.station_num = st.station_num ∧
    (tickPhase st).1.station_new = st.station_new ∧
    (tickPhase st).1.list_top = st.list_top ∧ (tickPhase st).1.cursorY = st.cursorY := by
  unfold tickPhase
  dsimp only
  split <;> exact ⟨rfl, rfl, rfl, rfl, rfl, rfl, rfl, rfl⟩

/-- Mode-flag mutual exclusion is preserved by each button branch and
hence by the whole dispatch. -/
theorem btnPhase_flags (stations : List String) (st : UI) (inp : Input)
    (h : FlagsOK st) : FlagsOK (btnPhase stations st inp).1 := by
  unfold FlagsOK at *
  unfold btnPhase
  split_ifs with h1 h2 h3 h4 h5
  · unfold selBranch
    split_ifs <;> simp
  · unfold rightBranch
    simp
  · unfold leftBranch
    split_ifs <;> simp
  · unfold menuNav
    dsimp only
    split_ifs <;> simp_all
  · unfold volAdjust
    dsimp only
    split_ifs <;> simp_all
  · unfold idleBranch
    split_ifs <;> simp_all

/-- One full tick preserves mode-flag mutual exclusion. -/
theorem step_flags (stations : List String) (st : UI) (inp : Input)
    (h : FlagsOK st) : FlagsOK (step stations st inp).1 := by
  have hb := btnPhase_flags stations st inp h
  have ht := tickPhase_preserves (btnPhase stations st inp).1
  unfold FlagsOK at *
  unfold step
  dsimp only
  rcases hb with hb | hb
  · exact Or.inl (ht.1.trans hb)
  · exact Or.inr (ht.2.1.trans hb)

/-- Any number of ticks preserves mode-flag mutual exclusion. -/
theorem run_flags (stations : List String) (inps : List Input) (st : UI)
    (h : FlagsOK st) : FlagsOK (run stations st inps) := by
  induction inps generalizing st with
  | nil => exact h
  | cons i is ih => rw [run_cons]; exact ih _ (step_flags stations st i h)

/-- Station-menu bookkeeping is preserved by each button branch and
hence by the whole dispatch. -/
theorem btnPhase_menu (stations : List String) (st : UI) (inp : Input)
    (hc : 1 ≤ (stations.length : ℤ)) (h : MenuOK (stations.length : ℤ) st) :
    MenuOK (stations.length : ℤ) (btnPhase stations st inp).1 := by
  unfold MenuOK at *
  unfold btnPhase
  split_ifs with h1 h2 h3 h4 h5
  · unfold selBranch
    split_ifs <;> intro hs <;> simp_all
  · unfold rightBranch
    intro hs
    simp_all
  · unfold leftBranch
    split_ifs <;> intro hs <;> simp_all
  · unfold menuNav
    dsimp only
    split_ifs <;> intro hs <;> simp_all <;> omega
  · unfold volAdjust
    dsimp only
    split_ifs <;> intro hs <;> simp_all
  · unfold idleBranch
    split_ifs <;> intro hs <;> simp_all <;> omega

/-- One full tick preserves the station-menu bookkeeping. -/
theorem step_menu (stations : List String) (st : UI) (inp : Input)
    (hc : 1 ≤ (stations.length : ℤ)) (h : MenuOK (stations.length : ℤ) st) :
    MenuOK (stations.length : ℤ) (step stations st inp).1 := by
  have hb := btnPhase_menu stations st inp hc h
  have ht := tickPhase_preserves (btnPhase stations st inp).1
  unfold MenuOK at hb ⊢
  unfold step
  dsimp only
  intro hs
  rw [ht.2.1] at hs
  rw [ht.2.2.2.2.2.1, ht.2.2.2.2.2.2.1, ht.2.2.2.2.2.2.2]
  exact hb hs

/-- Any number of ticks preserves the station-menu bookkeeping. -/
theorem run_menu (stations : List String) (inps : List Input) (st : UI)
    (hc : 1 ≤ (stations.length : ℤ)) (h : MenuOK (stations.length : ℤ) st) :
    MenuOK (stations.length : ℤ) (run stations st inps) := by
  induction inps generalizing st with
  | nil => exact h
  | cons i is ih => rw [run_cons]; exact ih _ (step_menu stations st i hc h)

/-- Volume bookkeeping is preserved by each button branch: the only
writes to the volumes clamp at the respective bound, and the speed
stays positive through resets and acceleration. -/
theorem btnPhase_vol (stations : List String) (st : UI) (inp : Input)
    (h : VolOK st) : VolOK (btnPhase stations st inp).1 := by
  obtain ⟨hv1, hv2, hv3, hv4, hv5⟩ := h
  have hmm : VOL_MIN ≤ VOL_MAX := by unfold VOL_MIN VOL_MAX; norm_num
  unfold VolOK
  unfold btnPhase
  split_ifs with h1 h2 h3 h4 h5
  · unfold selBranch
    split_ifs <;> exact ⟨hv1, hv2, hv3, hv4, hv5⟩
  · unfold rightBranch
    exact ⟨hv1, hv2, hv3, hv4, hv5⟩
  · unfold leftBranch
    split_ifs <;> exact ⟨hv1, hv2, hv3, hv4, hv5⟩
  · unfold menuNav
    dsimp only
    split_ifs <;> exact ⟨hv1, hv2, hv3, hv4, hv5⟩
  · unfold volAdjust
    dsimp only
    split_ifs <;> refine ⟨?_, ?_, ?_, ?_, ?_⟩ <;> dsimp only at * <;>
      first
        | exact hv1
        | exact hv2
        | linarith
  · unfold idleBranch
    split_ifs <;> refine ⟨?_, ?_, ?_, ?_, ?_⟩ <;> dsimp only <;>
      first
        | exact hv1
        | exact hv2
        | exact hv3
        | exact hv4
        | exact hv5
        | norm_num

/-- The end-of-tick volume transfer keeps the volumes in range: it
copies the in-range vol_new into vol_cur. -/
theorem tickPhase_vol (st : UI) (h : VolOK st) : VolOK (tickPhase st).1 := by
  obtain ⟨hv1, hv2, hv3, hv4, hv5⟩ := h
  unfold VolOK
  unfold tickPhase
  dsimp only
  split
  · exact ⟨hv1, hv2, hv3, hv4, hv5⟩
  · refine ⟨?_, ?_, hv3, hv4, hv5⟩ <;> dsimp only <;> rw [volumeTick_snd] <;>
      assumption

/-- One full tick preserves the volume bookkeeping. -/
theorem step_vol (stations : List String) (st : UI) (inp : Input)
    (h : VolOK st) : VolOK (step stations st inp).1 := by
  have hb := btnPhase_vol stations st inp h
  unfold step
  dsimp only
  exact tickPhase_vol _ hb

/-- Any number of ticks preserves the volume bookkeeping. -/
theorem run_vol (stations : List String) (inps : List Input) (st : UI)
    (h : VolOK st) : VolOK (run stations st inps) := by
  induction inps generalizing st with
  | nil => exact h
  | cons i is ih => rw [run_cons]; exact ih _ (step_vol stations st i h)

/-! ### Claim C1: volume stays in range -/

/-- C1: starting from any in-range target volume, after any sequence
of ticks — in particular any sequence of up/down button events with
their accelerating vol_speed — the target volume vol_new is within
[VOL_MIN, VOL_MAX]: an up press sets it to min(vol_cur + vol_speed,
VOL_MAX) and a down press to max(vol_cur - vol_speed, VOL_MIN), and
vol_cur only ever receives vol_new. -/
theorem C1_volume_always_in_range (stations : List String) (v0 : ℚ)
    (inps : List Input) (h1 : VOL_MIN ≤ v0) (h2 : v0 ≤ VOL_MAX) :
    VOL_MIN ≤ (run stations (initUI v0) inps).vol_new ∧
    (run stations (initUI v0) inps).vol_new ≤ VOL_MAX := by
  have hinit : VolOK (initUI v0) := by
    refine ⟨le_rfl, ?_, h1, h2, ?_⟩
    · show VOL_MIN ≤ VOL_MAX
      unfold VOL_MIN VOL_MAX
      norm_num
    · show (0 : ℚ) < 1
      norm_num
  have h := run_vol stations inps (initUI v0) hinit
  exact ⟨h.2.2.1, h.2.2.2.1⟩

/-- Concrete instance of C1: from the default volume, one up press
keeps the target in range. -/
theorem C1_witness :
    VOL_MIN ≤ (0 : ℚ) ∧ (0 : ℚ) ≤ VOL_MAX ∧
    (VOL_MIN ≤ (run ["QuickMix"] (initUI 0) [inUp]).vol_new ∧
     (run ["QuickMix"] (initUI 0) [inUp]).vol_new ≤ VOL_MAX) :=
  ⟨by decide, by decide,
   C1_volume_always_in_range ["QuickMix"] 0 [inUp] (by decide) (by decide)⟩

/-! ### Claim C2: mode flags are mutually exclusive -/

/-- C2: in every state reachable by the main loop, VolumeAdjust
(vol_set) and StationMenu (sta_sel) are never both set, so at every
sampled instant exactly one of Normal, VolumeAdjust, StationMenu is
active: entering the station menu clears vol_set, and the up/down
branch only sets vol_set when sta_sel is false. -/
theorem C2_mode_mutual_exclusion (stations : List String) (v0 : ℚ)
    (inps : List Input) :
    ((run stations (initUI v0) inps).vol_set = false ∧
     (run stations (initUI v0) inps).sta_sel = false) ∨
    ((run stations (initUI v0) inps).vol_set = true ∧
     (run stations (initUI v0) inps).sta_sel = false) ∨
    ((run stations (initUI v0) inps).vol_set = false ∧
     (run stations (initUI v0) inps).sta_sel = true) := by
  have h := run_flags stations inps (initUI v0) (Or.inl rfl)
  unfold FlagsOK at h
  rcases h with h | h
  · rcases Bool.eq_false_or_eq_true ((run stations (initUI v0) inps).sta_sel) with
      hs | hs
    · exact Or.inr (Or.inr ⟨h, hs⟩)
    · exact Or.inl ⟨h, hs⟩
  · rcases Bool.eq_false_or_eq_true ((run stations (initUI v0) inps).vol_set) with
      hv | hv
    · exact Or.inr (Or.inl ⟨hv, h⟩)
    · exact Or.inl ⟨hv, h⟩

/-! ### Claim C8: menu highlight inside the displayed window -/

/-- C8: in every reachable station-menu state the highlight index
station_new is within [0, stationCount - 1] and the window top
list_top keeps the highlight on one of the two displayed rows:
list_top ≤ station_new ≤ list_top + 1. -/
theorem C8_menu_highlight_in_window (stations : List String) (v0 : ℚ)
    (inps : List Input) (hc : 1 ≤ (stations.length : ℤ))
    (hs : (run stations (initUI v0) inps).sta_sel = true) :
    0 ≤ (run stations (initUI v0) inps).station_new ∧
    (run stations (initUI v0) inps).station_new ≤ (stations.length : ℤ) - 1 ∧
    (run stations (initUI v0) inps).list_top ≤
      (run stations (initUI v0) inps).station_new ∧
    (run stations (initUI v0) inps).station_new ≤
      (run stations (initUI v0) inps).list_top + 1 := by
  have hinit : MenuOK (stations.length : ℤ) (initUI v0) := fun hss => nomatch hss
  have h := run_menu stations inps (initUI v0) hc hinit
  obtain ⟨b1, b2, b3, b4, b5⟩ := h hs
  omega

/-- Concrete instance of C8: entering the menu with two stations puts
the highlight on the first displayed row. -/
theorem C8_witness :
    1 ≤ ((["QuickMix", "80s Rock"] : List String).length : ℤ) ∧
    (run ["QuickMix", "80s Rock"] (initUI 0) [inLeft]).sta_sel = true ∧
    (0 ≤ (run ["QuickMix", "80s Rock"] (initUI 0) [inLeft]).station_new ∧
     (run ["QuickMix", "80s Rock"] (initUI 0) [inLeft]).station_new ≤
       ((["QuickMix", "80s Rock"] : List String).length : ℤ) - 1 ∧
     (run ["QuickMix", "80s Rock"] (initUI 0) [inLeft]).list_top ≤
       (run ["QuickMix", "80s Rock"] (initUI 0) [inLeft]).station_new ∧
     (run ["QuickMix", "80s Rock"] (initUI 0) [inLeft]).station_new ≤
       (run ["QuickMix", "80s Rock"] (initUI 0) [inLeft]).list_top + 1) :=
  ⟨by decide, by decide,
   C8_menu_highlight_in_window ["QuickMix", "80s Rock"] 0 [inLeft]
     (by decide) (by decide)⟩

/-! ### Claim C4: left button entering the station menu -/

/-- C4 counterexample: select station 2 (index 1), then press left
again to re-enter the menu; the highlight cursor station_new is reset
to 0, not to the index station_num = 1 of the currently-selected
station. -/
theorem C4_counterexample :
    (run ["QuickMix", "80s Rock"] (initUI 0)
      [inLeft, inDown, inLeft, inLeft]).sta_sel = true ∧
    (run ["QuickMix", "80s Rock"] (initUI 0)
      [inLeft, inDown, inLeft, inLeft]).station_num = 1 ∧
    (run ["QuickMix", "80s Rock"] (initUI 0)
      [inLeft, inDown, inLeft, inLeft]).station_new = 0 := by decide

/-- C4 (corrected): when the left button is pressed outside the
station menu (from Normal or VolumeAdjust mode), the menu is entered
with the highlight cursor station_new reset to 0 — the top of the
list, not the currently-selected station — VolumeAdjust is cleared,
and a station-list redisplay is requested. -/
theorem C4_left_enters_menu (stations : List String) (st : UI) (inp : Input)
    (hsel : inp.btns.sel = false) (hright : inp.btns.right = false)
    (hleft : inp.btns.left = true) (hsta : st.sta_sel = false) :
    (step stations st inp).1.sta_sel = true ∧
    (step stations st inp).1.vol_set = false ∧
    (step stations st inp).1.station_new = 0 ∧
    Act.drawStations 0 0 ∈ (step stations st inp).2 := by
  unfold step btnPhase leftBranch tickPhase
  rw [hsel, hright, hleft, hsta]
  dsimp only
  simp

/-- Concrete instance of C4 as corrected: pressing left from the
initial state enters the menu with the cursor at the top and a
redisplay request. -/
theorem C4_witness :
    inLeft.btns.sel = false ∧ inLeft.btns.right = false ∧
    inLeft.btns.left = true ∧ (initUI 0).sta_sel = false ∧
    ((step ["QuickMix"] (initUI 0) inLeft).1.sta_sel = true ∧
     (step ["QuickMix"] (initUI 0) inLeft).1.vol_set = false ∧
     (step ["QuickMix"] (initUI 0) inLeft).1.station_new = 0 ∧
     Act.drawStations 0 0 ∈ (step ["QuickMix"] (initUI 0) inLeft).2) :=
  ⟨rfl, rfl, rfl, rfl,
   C4_left_enters_menu ["QuickMix"] (initUI 0) inLeft rfl rfl rfl rfl⟩
